import Mathlib

/-!
Verification of the feature-retrieval-and-normalization routine of the
web-map-feature-services cookbook (notebook cell `get_wfs_feature` plus the
coordinate axis flip and tabular load that follow it).

Coordinates are rational pairs. The external collaborators (the OWSLib
`WebFeatureService` client and the geopandas tabular loader) are modelled as
an explicit environment of server responses, so that the notebook code under
verification is an ordinary function of that environment.
-/

namespace WfsCookbook

/-- A coordinate pair, the two scalar components of one position. -/
abbrev Coord := ℚ × ℚ

/-- A GeoJSON-style geometry: a point, a line string, or a polygon given by an
exterior shell and a list of interior hole rings. -/
inductive Geometry
  | point (c : Coord)
  | lineString (coords : List Coord)
  | polygon (shell : List Coord) (holes : List (List Coord))
  deriving DecidableEq, Repr

/-- A scalar attribute value of a feature (string label or number). -/
inductive AttrValue
  | str (s : String)
  | num (q : ℚ)
  deriving DecidableEq, Repr

/-- One GeoJSON feature: a mapping of attribute names to scalar values, plus a
geometry. -/
structure Feature where
  properties : List (String × AttrValue)
  geometry : Geometry
  deriving DecidableEq, Repr

/-- A GeoJSON feature collection: the declared coordinate reference system and
the ordered list of features. -/
structure FeatureCollection where
  crs : String
  features : List Feature
  deriving DecidableEq, Repr

/-- The Python exceptions that can surface from the fetch path: the IndexError
raised by indexing an empty list, or a failure surfaced by the underlying
HTTP / WFS client machinery. -/
inductive PyError
  | indexError
  | fetchFailure
  deriving DecidableEq, Repr

/-- The capabilities (GetCapabilities) request sent when constructing the WFS
client: the endpoint URL and the requested protocol version. -/
structure CapabilitiesRequest where
  url : String
  version : String
  deriving DecidableEq, Repr

/-- The GetFeature retrieval request: the list of requested feature type names
and the requested output format. -/
structure GetFeatureRequest where
  typename : List String
  outputFormat : String
  deriving DecidableEq, Repr

/-- The environment of external server responses consumed by the notebook:
`capabilities` is the advertised feature-type list returned for a
capabilities request (the keys of `wfs.contents`, in iteration order), and
`getfeature` is the feature collection returned for a GetFeature request
against a given endpoint URL. Either exchange may fail. -/
structure WfsEnvironment where
  capabilities : CapabilitiesRequest → Except PyError (List String)
  getfeature : String → GetFeatureRequest → Except PyError FeatureCollection

/-- Python list indexing `xs[0]`: the first element, raising IndexError when
the list is empty. -/
def listIndex0 {α : Type} (xs : List α) : Except PyError α :=
  match xs with
  | [] => .error .indexError
  | x :: _ => .ok x

/-- The capabilities request built by `WebFeatureService(base_resource_url,
version="2.0.0")`: the version argument is the fixed literal, whatever the
URL already embeds. -/
def capabilitiesRequestOf (base_resource_url : String) : CapabilitiesRequest :=
  { url := base_resource_url, version := "2.0.0" }

/-- The retrieval request built by `wfs.getfeature(typename=[wfs_layer],
outputFormat="GeoJson")`. -/
def getFeatureRequestFor (wfs_layer : String) : GetFeatureRequest :=
  { typename := [wfs_layer], outputFormat := "GeoJson" }

/-- The notebook function `get_wfs_feature`: construct the client at version
2.0.0, take the first advertised layer of `wfs.contents`, and issue the
GetFeature request for it in GeoJson output format. Exceptions from either
exchange, and the IndexError from first-layer selection, propagate. -/
def get_wfs_feature (env : WfsEnvironment) (base_resource_url : String) :
    Except PyError FeatureCollection :=
  match env.capabilities (capabilitiesRequestOf base_resource_url) with
  | .error e => .error e
  | .ok wfs_contents =>
    match listIndex0 wfs_contents with
    | .error e => .error e
    | .ok wfs_layer => env.getfeature base_resource_url (getFeatureRequestFor wfs_layer)

/-- The endpoint URL used by the notebook; note it already embeds
version=1.0.0 as a query parameter. -/
def base_resource_url : String :=
  "https://mapservices.weather.noaa.gov/vector/services/outlooks/cpc_6_10_day_outlk/MapServer/WFSServer?service=WFS&version=1.0.0&request=GetFeature&srsname=EPSG%3A4326&typename=cpc_6_10_day_outlk%3ACPC_6-10_Day_Temperature_Outlook&propertyname=%2A"

/-- shapely.ops.transform applied to a geometry: the coordinate function is
applied to every coordinate pair, preserving structure and order. -/
def shapelyTransform (f : Coord → Coord) : Geometry → Geometry
  | .point c => .point (f c)
  | .lineString cs => .lineString (cs.map f)
  | .polygon shell holes => .polygon (shell.map f) (holes.map fun ring => ring.map f)

/-- The coordinate function `lambda x, y: (y, x)` of the notebook axis flip. -/
def swapXY (c : Coord) : Coord := (c.2, c.1)

/-- One row of the tabular structure: attribute columns plus the geometry
column. -/
structure FeatureRow where
  attributes : List (String × AttrValue)
  geometry : Geometry
  deriving DecidableEq, Repr

/-- The tabular geospatial structure (a GeoDataFrame): a declared coordinate
reference system and an ordered list of rows. -/
structure GeoDataFrame where
  crs : String
  rows : List FeatureRow
  deriving DecidableEq, Repr

/-- Modelled from the spec: `gpd.read_file`, the external tabular GIS loader
collaborator, whose code is not part of this repository. Per the spec it
turns a GeoJSON payload into a structured table with rows = features and
columns = attributes + geometry, carrying the declared coordinate reference
system. -/
def read_file (fc : FeatureCollection) : GeoDataFrame :=
  { crs := fc.crs,
    rows := fc.features.map fun f => { attributes := f.properties, geometry := f.geometry } }

/-- The notebook line reassigning the geometry column,
`gdf["geometry"] = gdf["geometry"].map(lambda polygon:
shapely.ops.transform(lambda x, y: (y, x), polygon))`: every row keeps its
attributes and gets its geometry axis-flipped. -/
def flipGeometryColumn (gdf : GeoDataFrame) : GeoDataFrame :=
  { gdf with
    rows := gdf.rows.map fun row =>
      { row with geometry := shapelyTransform swapXY row.geometry } }

/-- The notebook pipeline: fetch the feature collection, load it as a table,
and normalize the coordinate axis order. -/
def wfsPipeline (env : WfsEnvironment) (url : String) : Except PyError GeoDataFrame :=
  match get_wfs_feature env url with
  | .error e => .error e
  | .ok feature => .ok (flipGeometryColumn (read_file feature))

/-- The coordinate pairs of a geometry, in order of appearance. -/
def geomCoords : Geometry → List Coord
  | .point c => [c]
  | .lineString cs => cs
  | .polygon shell holes => shell ++ holes.flatten

/-- A mocked environment advertising two feature types, whose GetFeature reply
records the requested typenames in the crs field so the issued request is
observable in the result. -/
def twoLayerEnv : WfsEnvironment where
  capabilities := fun _ => .ok ["LayerA", "LayerB"]
  getfeature := fun _ req => .ok { crs := String.join req.typename, features := [] }

/-- A mocked environment whose capabilities response advertises zero feature
types. -/
def emptyCapsEnv : WfsEnvironment where
  capabilities := fun _ => .ok []
  getfeature := fun _ _ => .ok { crs := "EPSG:4326", features := [] }

/-- The polygon of the end-to-end scenario, first coordinate pair
(-88.26, 40.1). -/
def demoShell : List Coord :=
  [(-88.26, 40.1), (-88.0, 40.1), (-88.0, 40.5), (-88.26, 40.1)]

/-- The single feature of the end-to-end scenario: cat = "Above", prob = 33. -/
def demoFeature : Feature where
  properties := [("cat", .str "Above"), ("prob", .num 33)]
  geometry := .polygon demoShell []

/-- The feature collection served by the mocked endpoint of the end-to-end
scenario. -/
def demoCollection : FeatureCollection where
  crs := "EPSG:4326"
  features := [demoFeature]

/-- The mocked endpoint of the end-to-end scenario: one advertised layer, one
polygon feature. -/
def demoEnv : WfsEnvironment where
  capabilities := fun _ => .ok ["cpc_outlook_layer"]
  getfeature := fun _ _ => .ok demoCollection

/-- The table expected from the end-to-end scenario: one row, attributes kept,
axis order swapped. -/
def demoExpectedGdf : GeoDataFrame where
  crs := "EPSG:4326"
  rows :=
    [{ attributes := [("cat", .str "Above"), ("prob", .num 33)],
       geometry := .polygon
         [(40.1, -88.26), (40.1, -88.0), (40.5, -88.0), (40.1, -88.26)] [] }]

/-- An environment that answers version 2.0.0 capabilities requests with one
layer and answers other versions with an empty list. -/
def variantEnvA : WfsEnvironment where
  capabilities := fun req =>
    if req.version = "2.0.0" then .ok ["LayerA"] else .ok []
  getfeature := fun _ _ => .ok demoCollection

/-- An environment agreeing with variantEnvA on version 2.0.0 capabilities
requests but differing on every other version. -/
def variantEnvB : WfsEnvironment where
  capabilities := fun req =>
    if req.version = "2.0.0" then .ok ["LayerA"] else .error .fetchFailure
  getfeature := fun _ _ => .ok demoCollection

/- Helper lemmas shared by the claim theorems. -/

/-- The axis swap on one coordinate pair is self-inverse. -/
theorem swapXY_swapXY (c : Coord) : swapXY (swapXY c) = c := rfl

/-- The axis swap on one geometry is self-inverse. -/
theorem shapelyTransform_swap_swap (g : Geometry) :
    shapelyTransform swapXY (shapelyTransform swapXY g) = g := by
  have hid : swapXY ∘ swapXY = id := funext fun c => swapXY_swapXY c
  cases g with
  | point c => rfl
  | lineString cs =>
    simp [shapelyTransform, List.map_map, hid]
  | polygon shell holes =>
    simp [shapelyTransform, List.map_map, hid]

/-- When the capabilities response lists at least one feature type, the fetch
returns exactly the GetFeature response for the first listed feature type. -/
theorem get_wfs_feature_cons (env : WfsEnvironment) (url x : String)
    (rest : List String)
    (hcap : env.capabilities (capabilitiesRequestOf url) = .ok (x :: rest)) :
    get_wfs_feature env url = env.getfeature url (getFeatureRequestFor x) := by
  simp [get_wfs_feature, hcap, listIndex0]

/-- Claim C1: whenever the capabilities response advertises at least one
feature type, get_wfs_feature selects the first feature type of the
advertised list (its GetFeature request names exactly that feature type),
and for a fixed capabilities response the fetch result is exactly the
GetFeature response for that same first feature type. -/
theorem C1_first_layer_selected (env : WfsEnvironment) (url x : String)
    (rest : List String)
    (hcap : env.capabilities (capabilitiesRequestOf url) = .ok (x :: rest)) :
    get_wfs_feature env url = env.getfeature url (getFeatureRequestFor x) ∧
    (getFeatureRequestFor x).typename = [x] :=
  ⟨get_wfs_feature_cons env url x rest hcap, rfl⟩

/-- Witness for C1 on a mocked capabilities response with two layers: the
first layer is selected, observably in the reply. -/
theorem C1_first_layer_selected_witness :
    twoLayerEnv.capabilities (capabilitiesRequestOf base_resource_url) =
      .ok ["LayerA", "LayerB"] ∧
    (get_wfs_feature twoLayerEnv base_resource_url =
      twoLayerEnv.getfeature base_resource_url (getFeatureRequestFor "LayerA") ∧
    (getFeatureRequestFor "LayerA").typename = ["LayerA"]) ∧
    get_wfs_feature twoLayerEnv base_resource_url =
      .ok { crs := "LayerA", features := [] } :=
  ⟨rfl,
   C1_first_layer_selected twoLayerEnv base_resource_url "LayerA" ["LayerB"] rfl,
   by rfl⟩

/-- Claim C2: the coordinate normalizer is an involution, on every single
geometry and on the geometry column of every table: applying the axis swap
twice returns the original. -/
theorem C2_axis_swap_involution :
    (∀ g : Geometry, shapelyTransform swapXY (shapelyTransform swapXY g) = g) ∧
    (∀ gdf : GeoDataFrame, flipGeometryColumn (flipGeometryColumn gdf) = gdf) := by
  refine ⟨shapelyTransform_swap_swap, ?_⟩
  intro gdf
  cases gdf with
  | mk crs rows =>
    simp only [flipGeometryColumn, List.map_map]
    have hid : ((fun row : FeatureRow =>
        { row with geometry := shapelyTransform swapXY row.geometry }) ∘
        fun row : FeatureRow =>
          { row with geometry := shapelyTransform swapXY row.geometry }) = id := by
      funext row
      cases row
      simp [Function.comp, shapelyTransform_swap_swap]
    rw [hid, List.map_id]

/-- Claim C3: the normalizer swaps the two components of every coordinate
pair of every geometry, preserving their order, and it is independent of the
declared coordinate reference system of the table. -/
theorem C3_blind_swap_every_pair :
    (∀ g : Geometry,
      geomCoords (shapelyTransform swapXY g) =
        (geomCoords g).map fun c => (c.2, c.1)) ∧
    (∀ (crs1 crs2 : String) (rows : List FeatureRow),
      (flipGeometryColumn { crs := crs1, rows := rows }).rows =
        (flipGeometryColumn { crs := crs2, rows := rows }).rows) := by
  constructor
  · intro g
    cases g with
    | point c => rfl
    | lineString cs => rfl
    | polygon shell holes =>
      show geomCoords (shapelyTransform swapXY (.polygon shell holes)) =
        (geomCoords (.polygon shell holes)).map swapXY
      simp [geomCoords, shapelyTransform, List.map_flatten]
  · intro crs1 crs2 rows
    rfl

/-- Claim C4 counterexample: on a capabilities response with zero feature
types, get_wfs_feature raises the IndexError of first-element selection,
which is an index/lookup error, not a distinguished fetch failure. -/
theorem C4_empty_layers_counterexample :
    get_wfs_feature emptyCapsEnv base_resource_url = .error PyError.indexError ∧
    (Except.error PyError.indexError : Except PyError FeatureCollection) ≠
      Except.error PyError.fetchFailure := by
  exact ⟨rfl, by simp⟩

/-- Claim C4 amended: if the capabilities response advertises zero feature
types, the fetch fails deterministically, with the IndexError raised by
selecting the first element of the empty layer list. -/
theorem C4_empty_layers_amended (env : WfsEnvironment) (url : String)
    (hcap : env.capabilities (capabilitiesRequestOf url) = .ok []) :
    get_wfs_feature env url = .error PyError.indexError := by
  simp [get_wfs_feature, hcap, listIndex0]

/-- Witness for the amended C4 at a concrete zero-layer environment. -/
theorem C4_empty_layers_amended_witness :
    emptyCapsEnv.capabilities (capabilitiesRequestOf base_resource_url) = .ok [] ∧
    get_wfs_feature emptyCapsEnv base_resource_url = .error PyError.indexError :=
  ⟨rfl, C4_empty_layers_amended emptyCapsEnv base_resource_url rfl⟩

/-- Claim C5: whenever a GetFeature request is issued (the advertised layer
list is nonempty), that request carries the explicit output format GeoJson,
whatever the endpoint URL and the server defaults. -/
theorem C5_geojson_output_format (env : WfsEnvironment) (url x : String)
    (rest : List String)
    (hcap : env.capabilities (capabilitiesRequestOf url) = .ok (x :: rest)) :
    get_wfs_feature env url = env.getfeature url (getFeatureRequestFor x) ∧
    (getFeatureRequestFor x).outputFormat = "GeoJson" :=
  ⟨get_wfs_feature_cons env url x rest hcap, rfl⟩

/-- Witness for C5 at a concrete environment and the notebook URL. -/
theorem C5_geojson_output_format_witness :
    twoLayerEnv.capabilities (capabilitiesRequestOf base_resource_url) =
      .ok ["LayerA", "LayerB"] ∧
    (get_wfs_feature twoLayerEnv base_resource_url =
      twoLayerEnv.getfeature base_resource_url (getFeatureRequestFor "LayerA") ∧
    (getFeatureRequestFor "LayerA").outputFormat = "GeoJson") :=
  ⟨rfl, C5_geojson_output_format twoLayerEnv base_resource_url "LayerA" ["LayerB"] rfl⟩

/-- Claim C6: the capabilities negotiation always uses the fixed protocol
version 2.0.0, for every endpoint URL, in particular for the notebook URL
that already embeds version=1.0.0 as a query parameter; and the fetch
consults the capabilities of the environment only at that request. -/
theorem C6_fixed_capabilities_version :
    (∀ url : String, (capabilitiesRequestOf url).version = "2.0.0") ∧
    (capabilitiesRequestOf base_resource_url).version = "2.0.0" ∧
    (∀ (env : WfsEnvironment) (url : String),
      get_wfs_feature env url =
        match env.capabilities { url := url, version := "2.0.0" } with
        | .error e => .error e
        | .ok wfs_contents =>
          match listIndex0 wfs_contents with
          | .error e => .error e
          | .ok wfs_layer => env.getfeature url (getFeatureRequestFor wfs_layer)) :=
  ⟨fun _ => rfl, rfl, fun _ _ => rfl⟩

/-- Claim C7: for every feature collection, the rows of the table obtained by
loading it and normalizing the coordinates are exactly the image, feature by
feature and in order, of the input features under load-and-flip — so no
feature is dropped, none is duplicated, and the row count equals the feature
count. -/
theorem C7_row_count_preserved (fc : FeatureCollection) :
    (flipGeometryColumn (read_file fc)).rows =
      fc.features.map (fun f =>
        { attributes := f.properties,
          geometry := shapelyTransform swapXY f.geometry }) ∧
    (flipGeometryColumn (read_file fc)).rows.length = fc.features.length := by
  constructor
  · simp [flipGeometryColumn, read_file, List.map_map]
  · simp [flipGeometryColumn, read_file]

/-- Claim C8: the end-to-end scenario. The mocked endpoint serves one polygon
feature with cat = "Above", prob = 33 and first coordinate pair
(-88.26, 40.1); the pipeline of fetch, tabular load and normalization yields
exactly one row with those attribute values and first coordinate pair
(40.1, -88.26). -/
theorem C8_end_to_end_scenario :
    wfsPipeline demoEnv base_resource_url = .ok demoExpectedGdf ∧
    demoExpectedGdf.rows.length = 1 ∧
    demoExpectedGdf.rows.map (fun r => r.attributes.lookup "cat") =
      [some (.str "Above")] ∧
    demoExpectedGdf.rows.map (fun r => r.attributes.lookup "prob") =
      [some (.num 33)] ∧
    demoExpectedGdf.rows.map (fun r => (geomCoords r.geometry).head?) =
      [some (40.1, -88.26)] := by
  refine ⟨?_, rfl, ?_, ?_, ?_⟩ <;> rfl

/-- Claim C9: the normalization step only reassigns the geometry column:
the declared coordinate reference system, the number and order of the rows,
and every attribute column are unchanged. -/
theorem C9_only_geometry_reassigned (gdf : GeoDataFrame) :
    (flipGeometryColumn gdf).crs = gdf.crs ∧
    (flipGeometryColumn gdf).rows.length = gdf.rows.length ∧
    (flipGeometryColumn gdf).rows.map FeatureRow.attributes =
      gdf.rows.map FeatureRow.attributes := by
  refine ⟨rfl, ?_, ?_⟩
  · simp [flipGeometryColumn]
  · simp [flipGeometryColumn, List.map_map]

/-- Claim C10: the fetch is stateless; its result is determined by the server
responses alone. Two invocations against environments that agree on the
capabilities response at the issued request and on the GetFeature responses
for the given URL return the same result. -/
theorem C10_stateless_fetch (env env2 : WfsEnvironment) (url : String)
    (hcap : env.capabilities (capabilitiesRequestOf url) =
      env2.capabilities (capabilitiesRequestOf url))
    (hfeat : ∀ req, env.getfeature url req = env2.getfeature url req) :
    get_wfs_feature env url = get_wfs_feature env2 url := by
  cases h : env2.capabilities (capabilitiesRequestOf url) with
  | error e => simp [get_wfs_feature, hcap, h]
  | ok wfs_contents =>
    cases h2 : listIndex0 wfs_contents with
    | error e => simp [get_wfs_feature, hcap, h, h2]
    | ok wfs_layer => simp [get_wfs_feature, hcap, h, h2, hfeat]

/-- Witness for C10: two environments that differ on every other URL, but
agree at the notebook URL, produce the same fetch result there. -/
theorem C10_stateless_fetch_witness :
    variantEnvA.capabilities (capabilitiesRequestOf base_resource_url) =
      variantEnvB.capabilities (capabilitiesRequestOf base_resource_url) ∧
    get_wfs_feature variantEnvA base_resource_url =
      get_wfs_feature variantEnvB base_resource_url :=
  ⟨rfl,
   C10_stateless_fetch variantEnvA variantEnvB base_resource_url rfl fun _ => rfl⟩

end WfsCookbook
